import Mathlib

/-!
Shallow embedding of `src/src/Section.tsx` (the `Section` React component).

The component holds four state cells (`list`, `filter`, `fileredList`,
`inputValue`) and wires three effects:
  * a notifier effect on `[list]` calling `toWarnAPI()` when `list.length !== 0`;
  * a fetch effect on `[inputValue]` issuing a GitHub request when
    `inputValue !== ""`, whose `.then` chain maps the JSON body over
    `item.full_name` into `setList`, and whose `.catch` logs
    `"Erro ao buscar repositórios:"` with the error;
  * a filter effect on `[filter, list]` recomputing
    `setFileredList(list.filter((item) => item.includes(filter)))`.

We embed the component as a state machine: a `State` record, an `Action`
type for the externally triggered events (user keystrokes committed to the
two inputs, the button click, and the asynchronous resolution of an issued
fetch), and a `step` function executing one settled React turn (state
commit plus the effects whose dependencies changed).  Side effects are
recorded in the state: `warns` counts `toWarnAPI()` calls and `errors`
collects `console.error` messages.  Issued, not-yet-resolved fetches are
tracked in `pending` (the code itself keeps no such record: a response is
applied whenever it arrives, which is exactly what `step` does on
`resolve`).
-/

namespace UseEffect

/-- Boolean prefix test on character lists (the `sub.data` starts `l`). -/
def isPrefixB : List Char → List Char → Bool
  | [], _ => true
  | _ :: _, [] => false
  | a :: as, b :: bs => a == b && isPrefixB as bs

/-- Boolean contiguous-substring test on character lists; `isInfixB sub l`
is the semantics of JavaScript's `String.prototype.includes` receiver `l`,
argument `sub`. -/
def isInfixB (sub : List Char) : List Char → Bool
  | [] => sub.isEmpty
  | b :: bs => isPrefixB sub (b :: bs) || isInfixB sub bs

/-- JavaScript `s.includes(sub)`: contiguous, case-sensitive substring test. -/
def includes (s sub : String) : Bool :=
  isInfixB sub.data s.data

/-- The filter effect's computation:
`list.filter((item) => item.includes(filter))`. -/
def applyFilter (list : List String) (filter : String) : List String :=
  list.filter (fun item => includes item filter)

/-- A record of the GitHub repositories response.  The code consumes only
`full_name`; the other fields stand for the rest of the payload. -/
structure Repo where
  full_name : String
  name : String
  id : Nat
deriving DecidableEq, Repr

/-- How a single issued fetch resolves, as seen by the `.then`/`.catch`
chain: the JSON body is an array of records (`data.map` succeeds), the JSON
body is not an array (e.g. the API's 404 error object, so `data.map`
throws and the `.catch` runs), or the transport fails (`fetch` rejects). -/
inductive FetchOutcome where
  | arrayBody (repos : List Repo)
  | nonArrayBody (err : String)
  | transportError (err : String)
deriving DecidableEq, Repr

/-- The component's state, together with the observable side-effect log.
`fileredList` keeps the source's spelling.  `pending` lists identifiers of
issued fetches that have not resolved yet; `warns` counts `toWarnAPI()`
calls; `errors` collects `console.error` output. -/
structure State where
  list : List String
  filter : String
  fileredList : List String
  inputValue : String
  pending : List String
  warns : Nat
  errors : List String
deriving DecidableEq, Repr

/-- Initial state: all cells empty.  On mount the notifier effect sees an
empty list (no warn), the fetch effect sees an empty `inputValue` (no
request), and the filter effect computes `[].filter(...) = []`. -/
def initState : State :=
  { list := [], filter := "", fileredList := [], inputValue := ""
    pending := [], warns := 0, errors := [] }

/-- Externally triggered events, each standing for one settled React turn. -/
inductive Action where
  | setFilter (f : String)
  | setInputValue (id : String)
  | addToList
  | resolve (id : String) (outcome : FetchOutcome)
deriving DecidableEq, Repr

/-- Commit a new `list` value (always a fresh array in the source, so both
effects on `list` re-run): the notifier effect warns iff
`list.length !== 0`, and the filter effect recomputes `fileredList`. -/
def commitList (s : State) (newList : List String) : State :=
  { s with
    list := newList
    fileredList := applyFilter newList s.filter
    warns := if newList.length ≠ 0 then s.warns + 1 else s.warns }

/-- One settled turn of the component.

* `setFilter f`: commits the filter text; if the value is unchanged React
  bails out, otherwise the filter effect re-runs.

* `setInputValue id`: commits the identifier; if unchanged React bails
  out, otherwise the fetch effect re-runs and, guarded by
  `inputValue !== ""`, issues a request.

* `addToList`: `setList((state) => [...state, "Novo item"])`.

* `resolve id outcome`: an issued fetch for `id` comes back.  The code
  applies whatever arrives: an array body is mapped over `full_name` into
  `setList`; a non-array body makes `data.map` throw into the `.catch`; a
  transport error rejects into the `.catch`.  The `.catch` only logs.
  Resolving an identifier with no issued fetch is a no-op (such a trace is
  ill-formed). -/
def step (s : State) : Action → State
  | .setFilter f =>
      if f == s.filter then s
      else
        let s1 := { s with filter := f }
        { s1 with fileredList := applyFilter s1.list f }
  | .setInputValue id =>
      if id == s.inputValue then s
      else
        let s1 := { s with inputValue := id }
        if id == "" then s1 else { s1 with pending := s1.pending ++ [id] }
  | .addToList => commitList s (s.list ++ ["Novo item"])
  | .resolve id outcome =>
      if s.pending.contains id then
        let s1 := { s with pending := s.pending.erase id }
        match outcome with
        | .arrayBody repos => commitList s1 (repos.map Repo.full_name)
        | .nonArrayBody err =>
            { s1 with errors := s1.errors ++ ["Erro ao buscar repositórios: " ++ err] }
        | .transportError err =>
            { s1 with errors := s1.errors ++ ["Erro ao buscar repositórios: " ++ err] }
      else s

/-- Run the component from mount through a list of settled turns. -/
def run (acts : List Action) : State :=
  acts.foldl step initState

/-- Getter `getFilteredList()`: the current derived view. -/
def getFilteredList (s : State) : List String :=
  s.fileredList

/-- Getter `getList()`: the full unfiltered list. -/
def getList (s : State) : List String :=
  s.list

/-! Characterisation of the substring test. -/

theorem isPrefixB_iff (sub l : List Char) : isPrefixB sub l = true ↔ sub <+: l := by
  induction sub generalizing l with
  | nil => simp [isPrefixB]
  | cons a as ih =>
    cases l with
    | nil => simp [isPrefixB]
    | cons b bs => simp [isPrefixB, ih]

theorem isInfixB_iff (sub l : List Char) : isInfixB sub l = true ↔ sub <:+: l := by
  induction l with
  | nil => simp [isInfixB, List.isEmpty_iff]
  | cons b bs ih =>
    rw [isInfixB, List.infix_cons_iff, Bool.or_eq_true, isPrefixB_iff, ih]

theorem includes_iff (s sub : String) :
    includes s sub = true ↔ sub.data <:+: s.data :=
  isInfixB_iff sub.data s.data

theorem includes_empty (s : String) : includes s "" = true :=
  (includes_iff s "").mpr List.nil_infix

theorem applyFilter_empty (l : List String) : applyFilter l "" = l :=
  List.filter_eq_self.mpr fun a _ => includes_empty a

/-! The derived-view invariant.

After any settled turn, `fileredList` is exactly the filter effect's value
computed from the current `list` and `filter`. -/

/-- The cell `fileredList` is consistent with the current `list` and `filter`. -/
def FilterInv (s : State) : Prop :=
  s.fileredList = applyFilter s.list s.filter

theorem filterInv_init : FilterInv initState := rfl

theorem filterInv_step (s : State) (a : Action) (h : FilterInv s) :
    FilterInv (step s a) := by
  cases a with
  | setFilter f =>
    simp only [step]
    split
    · exact h
    · rfl
  | setInputValue id =>
    simp only [step]
    split
    · exact h
    · split <;> exact h
  | addToList => rfl
  | resolve id outcome =>
    simp only [step]
    split
    · cases outcome <;> first | rfl | exact h
    · exact h

theorem filterInv_run (acts : List Action) : FilterInv (run acts) := by
  suffices hgen : ∀ s, FilterInv s → FilterInv (acts.foldl step s) from
    hgen initState filterInv_init
  induction acts with
  | nil => intro s hs; exact hs
  | cons a rest ih => intro s hs; exact ih (step s a) (filterInv_step s a hs)

/-! Claims. -/

/-- C1: after any settled run, `getFilteredList()` is exactly
`list.filter((item) => item.includes(filter))`: the ordered sub-sequence of
the current ItemList whose elements contain the FilterText as a contiguous
case-sensitive substring (stated via `List.IsInfix` on the character
lists), order preserved (a `Sublist`); and when the FilterText is empty the
computed FilteredList equals the ItemList. -/
theorem c1_filtered_list (acts : List Action) :
    getFilteredList (run acts)
        = (run acts).list.filter (fun x => includes x (run acts).filter)
    ∧ List.Sublist (getFilteredList (run acts)) (run acts).list
    ∧ (∀ x, x ∈ getFilteredList (run acts) ↔
          x ∈ (run acts).list ∧ (run acts).filter.data <:+: x.data)
    ∧ ((run acts).filter = "" → getFilteredList (run acts) = (run acts).list) := by
  have hinv : getFilteredList (run acts)
      = (run acts).list.filter (fun x => includes x (run acts).filter) :=
    filterInv_run acts
  refine ⟨hinv, ?_, ?_, ?_⟩
  · rw [hinv]; exact List.filter_sublist _
  · intro x
    rw [hinv, List.mem_filter, includes_iff]
  · intro hf
    rw [hinv, hf]
    exact applyFilter_empty _

/-- Witness for C1 at a concrete run: after one `addToList` the filter is
empty and the computed FilteredList equals the ItemList. -/
theorem c1_filtered_list_witness :
    (run [Action.addToList]).filter = ""
    ∧ getFilteredList (run [Action.addToList]) = (run [Action.addToList]).list :=
  ⟨rfl, (c1_filtered_list [Action.addToList]).2.2.2 rfl⟩

/-- C5: committing an empty SourceIdentifier issues no request (`pending`
unchanged) and leaves ItemList, FilteredList and the side-effect log
exactly as they were: a no-op apart from the recorded input value. -/
theorem c5_empty_identifier (s : State) :
    (step s (Action.setInputValue "")).list = s.list
    ∧ (step s (Action.setInputValue "")).pending = s.pending
    ∧ (step s (Action.setInputValue "")).fileredList = s.fileredList
    ∧ (step s (Action.setInputValue "")).warns = s.warns
    ∧ (step s (Action.setInputValue "")).errors = s.errors := by
  simp only [step]
  split
  · exact ⟨rfl, rfl, rfl, rfl, rfl⟩
  · simp

/-- C6: `addToList` appends the literal `"Novo item"` to the ItemList,
preserving all prior elements and their order, and the FilteredList is
recomputed against the new list with the unchanged filter. -/
theorem c6_append_placeholder (s : State) :
    (step s Action.addToList).list = s.list ++ ["Novo item"]
    ∧ (step s Action.addToList).filter = s.filter
    ∧ (step s Action.addToList).fileredList
        = applyFilter (s.list ++ ["Novo item"]) s.filter :=
  ⟨rfl, rfl, rfl⟩

/-- After a `setFilter f` turn the committed filter is `f`, whether or not
React bailed out on an identical value. -/
theorem setFilter_filter (s : State) (f : String) :
    (step s (Action.setFilter f)).filter = f := by
  simp only [step]
  split
  · next h => exact (beq_iff_eq.mp h).symm
  · rfl

/-- C8: committing the same FilterText twice in succession produces the
same state — in particular the same FilteredList — as committing it once:
the second identical commit bails out. -/
theorem c8_setFilter_idempotent (s : State) (f : String) :
    step (step s (Action.setFilter f)) (Action.setFilter f)
        = step s (Action.setFilter f)
    ∧ getFilteredList (step (step s (Action.setFilter f)) (Action.setFilter f))
        = getFilteredList (step s (Action.setFilter f)) := by
  have hbail : ∀ t : State, t.filter = f → step t (Action.setFilter f) = t := by
    intro t ht
    simp only [step]
    rw [if_pos (beq_iff_eq.mpr ht.symm)]
  have h := hbail (step s (Action.setFilter f)) (setFilter_filter s f)
  exact ⟨h, by rw [h]⟩

/-- C7: when an issued fetch resolves with an array body, ItemList is
replaced wholesale by the `full_name` fields in response order, the
FilteredList is recomputed, and no other field of the records influences
the resulting state: any record list with the same `full_name` projection
yields the identical state. -/
theorem c7_success_replaces (s : State) (id : String) (repos : List Repo)
    (h : s.pending.contains id = true) :
    (step s (Action.resolve id (FetchOutcome.arrayBody repos))).list
        = repos.map Repo.full_name
    ∧ (step s (Action.resolve id (FetchOutcome.arrayBody repos))).fileredList
        = applyFilter (repos.map Repo.full_name) s.filter
    ∧ ∀ repos' : List Repo,
        repos'.map Repo.full_name = repos.map Repo.full_name →
        step s (Action.resolve id (FetchOutcome.arrayBody repos'))
          = step s (Action.resolve id (FetchOutcome.arrayBody repos)) := by
  refine ⟨?_, ?_, ?_⟩
  · simp only [step]; rw [if_pos h]; rfl
  · simp only [step]; rw [if_pos h]; rfl
  · intro repos' hmap
    simp only [step]
    rw [if_pos h, if_pos h]
    simp only [commitList, hmap]

/-- Witness for C7: resolving the single issued fetch with a two-record
body replaces the list by the two full names, and a record list differing
only in the other fields produces the identical state. -/
theorem c7_success_replaces_witness :
    (run [Action.setInputValue "alice"]).pending.contains "alice" = true
    ∧ (step (run [Action.setInputValue "alice"])
          (Action.resolve "alice"
            (FetchOutcome.arrayBody
              [⟨"alice/a", "a", 1⟩, ⟨"alice/b", "b", 2⟩]))).list
        = ["alice/a", "alice/b"]
    ∧ step (run [Action.setInputValue "alice"])
          (Action.resolve "alice"
            (FetchOutcome.arrayBody [⟨"alice/a", "x", 9⟩, ⟨"alice/b", "y", 8⟩]))
        = step (run [Action.setInputValue "alice"])
          (Action.resolve "alice"
            (FetchOutcome.arrayBody [⟨"alice/a", "a", 1⟩, ⟨"alice/b", "b", 2⟩])) :=
  ⟨by decide,
    (c7_success_replaces (run [Action.setInputValue "alice"]) "alice"
      [⟨"alice/a", "a", 1⟩, ⟨"alice/b", "b", 2⟩] (by decide)).1,
    (c7_success_replaces (run [Action.setInputValue "alice"]) "alice"
      [⟨"alice/a", "a", 1⟩, ⟨"alice/b", "b", 2⟩] (by decide)).2.2
      [⟨"alice/a", "x", 9⟩, ⟨"alice/b", "y", 8⟩] (by decide)⟩

/-- C9: the fetch path is all-or-nothing.  If the body is not an array
(for example the API's 404 error object), `data.map` throws into the
`.catch` and both ItemList and FilteredList keep their prior values; in
general a resolution either leaves ItemList exactly unchanged or replaces
it by the `full_name` projection of an array body — never a partial
update. -/
theorem c9_fetch_all_or_nothing (s : State) (id : String) (o : FetchOutcome) :
    (∀ err, o = FetchOutcome.nonArrayBody err →
        (step s (Action.resolve id o)).list = s.list
        ∧ (step s (Action.resolve id o)).fileredList = s.fileredList)
    ∧ ((step s (Action.resolve id o)).list = s.list
        ∨ ∃ repos, o = FetchOutcome.arrayBody repos
            ∧ (step s (Action.resolve id o)).list = repos.map Repo.full_name) := by
  by_cases hc : s.pending.contains id = true
  · cases o with
    | arrayBody repos =>
      constructor
      · intro err he
        exact absurd he (by simp)
      · refine Or.inr ⟨repos, rfl, ?_⟩
        simp only [step]; rw [if_pos hc]; rfl
    | nonArrayBody err =>
      constructor
      · intro e he
        simp only [step]; rw [if_pos hc]; exact ⟨rfl, rfl⟩
      · left
        simp only [step]; rw [if_pos hc]
    | transportError err =>
      constructor
      · intro e he
        exact absurd he (by simp)
      · left
        simp only [step]; rw [if_pos hc]
  · constructor
    · intro err he
      simp only [step]; rw [if_neg hc]; exact ⟨rfl, rfl⟩
    · left; simp only [step]; rw [if_neg hc]

/-- Witness for C9: a 404-style non-array body for the issued
`"ghost-user"` fetch leaves the (empty) ItemList unchanged. -/
theorem c9_fetch_all_or_nothing_witness :
    (step (run [Action.setInputValue "ghost-user"])
        (Action.resolve "ghost-user"
          (FetchOutcome.nonArrayBody "data.map is not a function"))).list
      = (run [Action.setInputValue "ghost-user"]).list
    ∧ (run [Action.setInputValue "ghost-user"]).list = [] :=
  ⟨((c9_fetch_all_or_nothing (run [Action.setInputValue "ghost-user"]) "ghost-user"
      (FetchOutcome.nonArrayBody "data.map is not a function")).1
      "data.map is not a function" rfl).1,
    by decide⟩

/-- C10: the notifier effect's guard `list.length !== 0` means `toWarnAPI`
is never called when the update leaves an empty list — including a
transition from a non-empty list to an empty one. -/
theorem c10_no_warn_on_empty (s : State) (a : Action)
    (h : (step s a).list = []) :
    (step s a).warns = s.warns := by
  cases a with
  | setFilter f =>
    simp only [step]; split <;> rfl
  | setInputValue id =>
    simp only [step]; split
    · rfl
    · split <;> rfl
  | addToList =>
    exact absurd h (by simp [step, commitList])
  | resolve id outcome =>
    by_cases hc : s.pending.contains id = true
    · cases outcome with
      | arrayBody repos =>
        simp only [step] at h ⊢
        rw [if_pos hc] at h ⊢
        simp only [commitList] at h ⊢
        simp [h]
      | nonArrayBody err => simp only [step]; rw [if_pos hc]
      | transportError err => simp only [step]; rw [if_pos hc]
    · simp only [step]; rw [if_neg hc]

/-- C2: the fetch effect installs no cleanup and compares no identifiers
at resolution time, so a stale response overwrites a newer one.  Concrete
trace: the identifier is set to `"alice"`, then to `"bob"`; `"bob"`'s fetch
resolves first, then `"alice"`'s resolves — and ItemList ends equal to
alice's result, not bob's, violating last-requested-identifier-wins. -/
theorem c2_stale_result_overwrites :
    getList (run [Action.setInputValue "alice", Action.setInputValue "bob",
        Action.resolve "bob" (FetchOutcome.arrayBody [⟨"bob/repo-1", "repo-1", 2⟩]),
        Action.resolve "alice" (FetchOutcome.arrayBody [⟨"alice/repo-1", "repo-1", 1⟩])])
      = ["alice/repo-1"]
    ∧ (["alice/repo-1"] : List String) ≠ ["bob/repo-1"] := by
  decide

/-- C3 counterexample: for the failed fetch issued for `"ghost-user"`
(404-style body, `data.map` throws), exactly one failure event is logged,
but the event does not carry the identifier the request was issued for:
`"ghost-user"` does not occur in the logged message. -/
theorem c3_counterexample :
    (run [Action.setInputValue "ghost-user",
        Action.resolve "ghost-user"
          (FetchOutcome.nonArrayBody "data.map is not a function")]).errors
      = ["Erro ao buscar repositórios: data.map is not a function"]
    ∧ includes "Erro ao buscar repositórios: data.map is not a function" "ghost-user"
        = false := by
  decide

/-- C3 amended: a failed fetch (transport error, or non-array body such as
a 404 error object) leaves ItemList, FilteredList and the warn counter at
their pre-call values and appends exactly one failure event to the
observability log — the `console.error` message built from the fixed prefix
and the underlying error, which carries the error but not the identifier. -/
theorem c3_failure_behavior (s : State) (id err : String)
    (h : s.pending.contains id = true) :
    ((step s (Action.resolve id (FetchOutcome.transportError err))).list = s.list
      ∧ (step s (Action.resolve id (FetchOutcome.transportError err))).fileredList
          = s.fileredList
      ∧ (step s (Action.resolve id (FetchOutcome.transportError err))).warns = s.warns
      ∧ (step s (Action.resolve id (FetchOutcome.transportError err))).errors
          = s.errors ++ ["Erro ao buscar repositórios: " ++ err])
    ∧ ((step s (Action.resolve id (FetchOutcome.nonArrayBody err))).list = s.list
      ∧ (step s (Action.resolve id (FetchOutcome.nonArrayBody err))).fileredList
          = s.fileredList
      ∧ (step s (Action.resolve id (FetchOutcome.nonArrayBody err))).warns = s.warns
      ∧ (step s (Action.resolve id (FetchOutcome.nonArrayBody err))).errors
          = s.errors ++ ["Erro ao buscar repositórios: " ++ err]) := by
  constructor
  · simp only [step]; rw [if_pos h]; exact ⟨rfl, rfl, rfl, rfl⟩
  · simp only [step]; rw [if_pos h]; exact ⟨rfl, rfl, rfl, rfl⟩

/-- Witness for the amended C3: a simulated transport failure of the
issued `"ghost-user"` fetch leaves the list untouched and logs one
event. -/
theorem c3_failure_behavior_witness :
    (run [Action.setInputValue "ghost-user"]).pending.contains "ghost-user" = true
    ∧ (step (run [Action.setInputValue "ghost-user"])
          (Action.resolve "ghost-user" (FetchOutcome.transportError "Failed to fetch"))).errors
        = (run [Action.setInputValue "ghost-user"]).errors
            ++ ["Erro ao buscar repositórios: " ++ "Failed to fetch"] :=
  ⟨by decide,
    (c3_failure_behavior (run [Action.setInputValue "ghost-user"]) "ghost-user"
      "Failed to fetch" (by decide)).1.2.2.2⟩

/-- C4 counterexample: a settled fetch completion in which ItemList's
length changes to a different length (from 1 to 0) on which the notifier
does not fire: the warn counter is unchanged, though the claim demands
exactly one firing for this mutation. -/
theorem c4_counterexample :
    (run [Action.addToList, Action.setInputValue "u"]).list.length = 1
    ∧ (run [Action.addToList, Action.setInputValue "u",
          Action.resolve "u" (FetchOutcome.arrayBody [])]).list.length = 0
    ∧ (run [Action.addToList, Action.setInputValue "u",
          Action.resolve "u" (FetchOutcome.arrayBody [])]).warns
        = (run [Action.addToList, Action.setInputValue "u"]).warns := by
  decide

/-- C4 amended: the notifier fires exactly once per settled mutation
(placeholder append or fetch completion) whose resulting ItemList is
non-empty — even when the length did not change — and never fires when the
resulting list is empty; it never fires on a FilterText or identifier
change alone, nor on a failed fetch. -/
theorem c4_notifier (s : State) (f id id2 err : String) (repos : List Repo)
    (h : s.pending.contains id = true) :
    (step s Action.addToList).warns = s.warns + 1
    ∧ (step s (Action.resolve id (FetchOutcome.arrayBody repos))).warns
        = (if repos.length ≠ 0 then s.warns + 1 else s.warns)
    ∧ (step s (Action.setFilter f)).warns = s.warns
    ∧ (step s (Action.setInputValue id2)).warns = s.warns
    ∧ (step s (Action.resolve id (FetchOutcome.nonArrayBody err))).warns = s.warns
    ∧ (step s (Action.resolve id (FetchOutcome.transportError err))).warns = s.warns := by
  refine ⟨?_, ?_, ?_, ?_, ?_, ?_⟩
  · simp [step, commitList]
  · simp only [step]; rw [if_pos h]; simp [commitList]
  · simp only [step]; split <;> rfl
  · simp only [step]; split
    · rfl
    · split <;> rfl
  · simp only [step]; rw [if_pos h]
  · simp only [step]; rw [if_pos h]

/-- Witness for the amended C4: from the mounted state, one append fires
the notifier once; resolving an issued fetch with an empty body does not
fire it. -/
theorem c4_notifier_witness :
    (step (run [Action.setInputValue "u"]) Action.addToList).warns
        = (run [Action.setInputValue "u"]).warns + 1
    ∧ (step (run [Action.setInputValue "u"])
          (Action.resolve "u" (FetchOutcome.arrayBody []))).warns
        = (run [Action.setInputValue "u"]).warns :=
  ⟨(c4_notifier (run [Action.setInputValue "u"]) "f" "u" "v" "e" [] (by decide)).1,
    by have h2 := (c4_notifier (run [Action.setInputValue "u"]) "f" "u" "v" "e" []
        (by decide)).2.1
       simpa using h2⟩

/-- Witness for C10: a fetch for `"u"` resolving with an empty array while
the list holds one placeholder item empties the list and does not warn. -/
theorem c10_no_warn_on_empty_witness :
    (step (run [Action.addToList, Action.setInputValue "u"])
        (Action.resolve "u" (FetchOutcome.arrayBody []))).list = []
    ∧ (step (run [Action.addToList, Action.setInputValue "u"])
        (Action.resolve "u" (FetchOutcome.arrayBody []))).warns
      = (run [Action.addToList, Action.setInputValue "u"]).warns :=
  ⟨by decide,
    c10_no_warn_on_empty (run [Action.addToList, Action.setInputValue "u"])
      (Action.resolve "u" (FetchOutcome.arrayBody [])) (by decide)⟩

end UseEffect
